import Mathlib

/-!
Verification development for a trust-scoring client over a remote social-graph
distance oracle. The JavaScript sources are shallowly embedded here:
JavaScript numbers are modelled as rationals (`ℚ`), `null`/`undefined` as
`Option`/dedicated constructors, thrown exceptions as `Except` errors.
-/

set_option autoImplicit false

/-! ## ScoringEngine (trust score module)

The scoring module exports `DEFAULT_SCORING`, `calculateScore(hops, paths,
scoring)` and `getTrustLevel(score)`.  A scoring configuration is a JS object
whose fields may be absent (`undefined`), `null`, a number, or an object
mapping hop keys to numbers; each possibility is a constructor below. -/

/-- Value of the `distanceWeights` field of a scoring config.  `num` models a
(malformed) numeric field: indexing a JS number primitive yields `undefined`,
the same as a lookup miss. -/
inductive DistField where
  | undef
  | null
  | num (v : ℚ)
  | obj (m : List (Nat × ℚ))
deriving DecidableEq

/-- Value of the `pathBonus` field of a scoring config: absent, `null`, a
legacy scalar number, or a per-hop mapping. -/
inductive PathBonusField where
  | undef
  | null
  | num (v : ℚ)
  | obj (m : List (Nat × ℚ))
deriving DecidableEq

/-- A scoring configuration object.  `maxPathBonus = none` models a `null` or
absent field (both are handled by `?? 0.5` in the source). -/
structure ScoringConfig where
  distanceWeights : DistField
  pathBonus : PathBonusField
  maxPathBonus : Option ℚ
deriving DecidableEq

/-- A JS runtime exception raised by the scoring code. -/
inductive JsRuntimeError where
  | typeError
deriving DecidableEq

def DEFAULT_distanceWeights : List (Nat × ℚ) :=
  [(1, 1), (2, mkRat 1 2), (3, mkRat 1 4), (4, mkRat 1 10)]

def DEFAULT_pathBonus : List (Nat × ℚ) :=
  [(2, mkRat 3 20), (3, mkRat 1 10), (4, mkRat 1 20)]

/-- `DEFAULT_SCORING` from the scoring module. -/
def DEFAULT_SCORING : ScoringConfig :=
  { distanceWeights := .obj DEFAULT_distanceWeights
    pathBonus := .obj DEFAULT_pathBonus
    maxPathBonus := some (mkRat 1 2) }

/-- `distanceWeights?.[hopKey]`: optional chaining yields `undefined` on
`null`/`undefined`, and indexing a number primitive also yields `undefined`. -/
def distLookup : DistField → Nat → Option ℚ
  | .obj m, k => m.lookup k
  | _, _ => none

/-- `distanceWeights?.[hopKey] ?? DEFAULT_SCORING.distanceWeights[hopKey] ?? 0.1`. -/
def resolveBase (dw : DistField) (hopKey : Nat) : ℚ :=
  (distLookup dw hopKey).getD ((DEFAULT_distanceWeights.lookup hopKey).getD (mkRat 1 10))

/-- The `pathBonusValue` resolution inside `calculateScore`.  In JS,
`typeof null === 'object'`, so a `null` `pathBonus` is routed to the
object branch and `null[hopKey]` raises a `TypeError`. -/
def resolvePathBonusValue (pb : PathBonusField) (hopKey : Nat) :
    Except JsRuntimeError ℚ :=
  match pb with
  | .null => .error .typeError
  | .obj m => .ok ((m.lookup hopKey).getD ((DEFAULT_pathBonus.lookup hopKey).getD (mkRat 1 20)))
  | .num v => .ok v
  | .undef => .ok (mkRat 1 10)

/-- `calculateScore(hops, paths, scoring)`.  `hops` is `null`/`undefined`
(`none`) or a non-negative integer; `paths` is `null` (`none`) or a number. -/
def calculateScore (hops : Option ℕ) (paths : Option ℚ)
    (scoring : ScoringConfig) : Except JsRuntimeError ℚ :=
  match hops with
  | some 0 => .ok 1
  | none => .ok 0
  | some (n + 1) =>
    let hopKey := min (n + 1) 4
    let base := resolveBase scoring.distanceWeights hopKey
    let bonusE : Except JsRuntimeError ℚ :=
      match paths with
      | some p =>
        if 1 < p ∧ 1 < n + 1 then
          (resolvePathBonusValue scoring.pathBonus hopKey).map
            (fun pbv => min (pbv * (p - 1)) (scoring.maxPathBonus.getD (mkRat 1 2)))
        else .ok 0
      | none => .ok 0
    bonusE.map (fun bonus => min (max (base + bonus) 0) 1)

/-- `getTrustLevel(score)`; `none` models a `null`/`undefined` score. -/
def getTrustLevel (score : Option ℚ) : String :=
  match score with
  | none => "Unknown"
  | some s =>
    if mkRat 9 10 ≤ s then "Very High"
    else if mkRat 1 2 ≤ s then "High"
    else if mkRat 1 4 ≤ s then "Medium"
    else if mkRat 1 10 ≤ s then "Low"
    else "Very Low"

/-- Well-formedness of a scoring config, following the spec's data model:
`distanceWeights` maps each hop count 1..4 to a weight in `[0,1]`;
`pathBonus` is a per-hop mapping on 2..4 (non-negative bonuses) or a
non-negative legacy scalar; `maxPathBonus` is a cap in `[0,1]`. -/
def isUnit (q : ℚ) : Bool := decide (0 ≤ q) && decide (q ≤ 1)

def wellFormedDW : DistField → Bool
  | .obj m => (List.range 4).all fun i =>
      match m.lookup (i + 1) with
      | some w => isUnit w
      | none => false
  | _ => false

def wellFormedPB : PathBonusField → Bool
  | .num v => decide (0 ≤ v)
  | .obj m => [2, 3, 4].all fun k =>
      match m.lookup k with
      | some w => decide (0 ≤ w)
      | none => false
  | _ => false

def wellFormedConfig (c : ScoringConfig) : Bool :=
  wellFormedDW c.distanceWeights && wellFormedPB c.pathBonus &&
    (match c.maxPathBonus with
     | some q => isUnit q
     | none => false)

/-! ## OracleClient and ResponseValidator (`lib/api.js`)

Decoded JSON bodies are modelled by the `JSON` type below; JS `undefined`
(an absent field) is `Option.none` at access sites. -/

inductive JSON where
  | null
  | bool (b : Bool)
  | num (q : ℚ)
  | str (s : String)
  | arr (xs : List JSON)
  | obj (fields : List (String × JSON))

/-- JS `data === null` on a decoded JSON value. -/
def jsIsNull : JSON → Bool
  | .null => true
  | _ => false

/-- JS `typeof x === 'object'` on a decoded JSON value: true for objects,
arrays and `null`. -/
def isObjectType : JSON → Bool
  | .null => true
  | .arr _ => true
  | .obj _ => true
  | _ => false

/-- JS named-property access `data.k`; `none` models `undefined`.  Named
(non-index) properties exist only on objects. -/
def getField : JSON → String → Option JSON
  | .obj fields, k => fields.lookup k
  | _, _ => none

/-- JS `Object.entries`: an object yields its own entries, an array its
index-keyed entries, and any primitive yields nothing. -/
def jsEntries : JSON → List (String × JSON)
  | .obj fields => fields
  | .arr xs => ((List.range xs.length).zip xs).map fun e => (toString e.1, e.2)
  | _ => []

/-- JS nullish coalescing `a ?? b`; `none` models `undefined`. -/
def nullish (v : Option JSON) (dflt : JSON) : JSON :=
  match v with
  | none => dflt
  | some .null => dflt
  | some x => x

/-- A character accepted by the class `[a-f0-9]` under the `i` flag. -/
def isHexCharCI (c : Char) : Bool :=
  (('a' ≤ c) && (c ≤ 'f')) || (('A' ≤ c) && (c ≤ 'F')) || (('0' ≤ c) && (c ≤ '9'))

/-- `isValidPubkey(pubkey)`: a string matching `/^[a-f0-9]{64}$/i`. -/
def isValidPubkey : JSON → Bool
  | .str s => s.length == 64 && s.data.all isHexCharCI
  | _ => false

/-- `isValidHops(hops)`: `null`, or an integer in `[0, 100]`.  The argument is
`Option JSON` because the accessed field may be `undefined` (rejected:
`Number.isInteger(undefined)` is false). -/
def isValidHops : Option JSON → Bool
  | some .null => true
  | some (.num q) => q.den == 1 && decide (0 ≤ q) && decide (q ≤ 100)
  | _ => false

/-- `isValidPaths(paths)`: `null`, `undefined`, or a non-negative integer. -/
def isValidPaths : Option JSON → Bool
  | none => true
  | some .null => true
  | some (.num q) => q.den == 1 && decide (0 ≤ q)
  | _ => false

/-- `validateDistanceResponse(data)`; a thrown `Error` is modelled by
`Except.error` carrying the message. -/
def validateDistanceResponse (data : JSON) : Except String JSON :=
  if !(isObjectType data) || jsIsNull data then
    .error "Invalid oracle response: expected object"
  else if !(isValidHops (getField data "hops")) then
    .error "Invalid oracle response: hops must be null or a non-negative integer"
  else if (getField data "paths").isSome && !(isValidPaths (getField data "paths")) then
    .error "Invalid oracle response: paths must be null or a non-negative integer"
  else .ok data

/-- The entry loop of `validateBatchResponse`, failing at the first entry with
a bad key or bad hops value. -/
def checkBatchEntries : List (String × JSON) → Except String Unit
  | [] => .ok ()
  | (pubkey, hops) :: rest =>
    if !(isValidPubkey (.str pubkey)) then
      .error ("Invalid oracle batch response: invalid pubkey " ++ pubkey)
    else if !(isValidHops (some hops)) then
      .error ("Invalid oracle batch response: invalid hops for " ++ pubkey)
    else checkBatchEntries rest

/-- `validateBatchResponse(data)`. -/
def validateBatchResponse (data : JSON) : Except String JSON :=
  if !(isObjectType data) || jsIsNull data then
    .error "Invalid oracle batch response: expected object"
  else
    match checkBatchEntries (jsEntries data) with
    | .error e => .error e
    | .ok _ => .ok data

/-- The element loop of `validateFollowsResponse`.  (The JS message also
interpolates the offending value; the string coercion of an arbitrary JS
value is not modelled.) -/
def checkFollowsList : List JSON → Except String Unit
  | [] => .ok ()
  | pk :: rest =>
    if !(isValidPubkey pk) then
      .error "Invalid oracle follows response: invalid pubkey"
    else checkFollowsList rest

/-- `validateFollowsResponse(data)`. -/
def validateFollowsResponse (data : JSON) : Except String JSON :=
  if !(isObjectType data) || jsIsNull data then
    .error "Invalid oracle follows response: expected object"
  else
    match getField data "follows" with
    | some (.arr xs) =>
      match checkFollowsList xs with
      | .error e => .error e
      | .ok _ => .ok data
    | _ => .error "Invalid oracle follows response: follows must be an array"

/-- The element loop of `validateCommonFollowsResponse`. -/
def checkCommonList : List JSON → Except String Unit
  | [] => .ok ()
  | pk :: rest =>
    if !(isValidPubkey pk) then
      .error "Invalid oracle common-follows response: invalid pubkey"
    else checkCommonList rest

/-- `validateCommonFollowsResponse(data)`. -/
def validateCommonFollowsResponse (data : JSON) : Except String JSON :=
  if !(isObjectType data) || jsIsNull data then
    .error "Invalid oracle common-follows response: expected object"
  else
    match getField data "common" with
    | some (.arr xs) =>
      match checkCommonList xs with
      | .error e => .error e
      | .ok _ => .ok data
    | _ => .error "Invalid oracle common-follows response: common must be an array"

/-- The element loop of `validatePathResponse`. -/
def checkPathList : List JSON → Except String Unit
  | [] => .ok ()
  | pk :: rest =>
    if !(isValidPubkey pk) then
      .error "Invalid oracle path response: invalid pubkey"
    else checkPathList rest

/-- `validatePathResponse(data)`: `path` must be `null` or an array of valid
pubkeys (an absent `path` is rejected: `undefined !== null` and is not an
array). -/
def validatePathResponse (data : JSON) : Except String JSON :=
  if !(isObjectType data) || jsIsNull data then
    .error "Invalid oracle path response: expected object"
  else
    match getField data "path" with
    | some .null => .ok data
    | some (.arr xs) =>
      match checkPathList xs with
      | .error e => .error e
      | .ok _ => .ok data
    | _ => .error "Invalid oracle path response: path must be null or an array"

/-! ### RemoteOracle operations

Each operation performs exactly one Transport call; it is embedded as a
function of that call's outcome.  A network-level failure (`fetch` rejecting)
propagates as `OpError.network`; an `Error` thrown by the client code itself
propagates as `OpError.thrown` with its message. -/

structure HttpResponse where
  status : Nat
  body : JSON

inductive TransportResult where
  | response (res : HttpResponse)
  | netError

inductive OpError where
  | thrown (msg : String)
  | network
deriving DecidableEq

/-- `res.ok`: HTTP status in the 2xx range. -/
def resOk (status : Nat) : Bool := 200 ≤ status && status < 300

/-- `RemoteOracle.getDistance`: returns `data.hops ?? null` on success,
`null` on 404. -/
def getDistance (t : TransportResult) : Except OpError JSON :=
  match t with
  | .netError => .error .network
  | .response res =>
    if !(resOk res.status) then
      if res.status == 404 then .ok .null
      else .error (.thrown ("Oracle error: " ++ toString res.status))
    else
      match validateDistanceResponse res.body with
      | .error m => .error (.thrown m)
      | .ok data => .ok (nullish (getField data "hops") .null)

/-- `RemoteOracle.getDistanceInfo`: returns the validated body on success,
`null` on 404. -/
def getDistanceInfo (t : TransportResult) : Except OpError JSON :=
  match t with
  | .netError => .error .network
  | .response res =>
    if !(resOk res.status) then
      if res.status == 404 then .ok .null
      else .error (.thrown ("Oracle error: " ++ toString res.status))
    else
      match validateDistanceResponse res.body with
      | .error m => .error (.thrown m)
      | .ok data => .ok data

/-- `RemoteOracle.getDistanceBatch`: no 404 special case. -/
def getDistanceBatch (t : TransportResult) : Except OpError JSON :=
  match t with
  | .netError => .error .network
  | .response res =>
    if !(resOk res.status) then
      .error (.thrown ("Oracle batch error: " ++ toString res.status))
    else
      match validateBatchResponse res.body with
      | .error m => .error (.thrown m)
      | .ok data => .ok data

/-- `RemoteOracle.getStats`: returns the raw decoded body, unvalidated. -/
def getStats (t : TransportResult) : Except OpError JSON :=
  match t with
  | .netError => .error .network
  | .response res =>
    if !(resOk res.status) then
      .error (.thrown ("Oracle stats error: " ++ toString res.status))
    else .ok res.body

/-- `RemoteOracle.isHealthy`: `res.ok` inside a try/catch that turns any
failure into `false`. -/
def isHealthy : TransportResult → Bool
  | .netError => false
  | .response res => resOk res.status

/-- `RemoteOracle.getFollows`: returns `data.follows ?? []` on success, `[]`
on 404. -/
def getFollows (t : TransportResult) : Except OpError JSON :=
  match t with
  | .netError => .error .network
  | .response res =>
    if !(resOk res.status) then
      if res.status == 404 then .ok (.arr [])
      else .error (.thrown ("Oracle follows error: " ++ toString res.status))
    else
      match validateFollowsResponse res.body with
      | .error m => .error (.thrown m)
      | .ok data => .ok (nullish (getField data "follows") (.arr []))

/-- `RemoteOracle.getCommonFollows`: returns `data.common ?? []` on success,
`[]` on 404. -/
def getCommonFollows (t : TransportResult) : Except OpError JSON :=
  match t with
  | .netError => .error .network
  | .response res =>
    if !(resOk res.status) then
      if res.status == 404 then .ok (.arr [])
      else .error (.thrown ("Oracle common-follows error: " ++ toString res.status))
    else
      match validateCommonFollowsResponse res.body with
      | .error m => .error (.thrown m)
      | .ok data => .ok (nullish (getField data "common") (.arr []))

/-- `RemoteOracle.getPath`: returns `data.path ?? null` on success, `null`
on 404. -/
def getPath (t : TransportResult) : Except OpError JSON :=
  match t with
  | .netError => .error .network
  | .response res =>
    if !(resOk res.status) then
      if res.status == 404 then .ok .null
      else .error (.thrown ("Oracle path error: " ++ toString res.status))
    else
      match validatePathResponse res.body with
      | .error m => .error (.thrown m)
      | .ok data => .ok (nullish (getField data "path") .null)

/-! ### Shape predicates (spec section 4.2)

One decidable predicate per response family, stating the documented shape
rules that a decoded body must satisfy. -/

def distanceShape (data : JSON) : Bool :=
  isObjectType data && !(jsIsNull data) && isValidHops (getField data "hops") &&
    (!(getField data "paths").isSome || isValidPaths (getField data "paths"))

def batchShape (data : JSON) : Bool :=
  isObjectType data && !(jsIsNull data) &&
    (jsEntries data).all fun e => isValidPubkey (.str e.1) && isValidHops (some e.2)

def followsShape (data : JSON) : Bool :=
  isObjectType data && !(jsIsNull data) &&
    (match getField data "follows" with
     | some (.arr xs) => xs.all isValidPubkey
     | _ => false)

def commonFollowsShape (data : JSON) : Bool :=
  isObjectType data && !(jsIsNull data) &&
    (match getField data "common" with
     | some (.arr xs) => xs.all isValidPubkey
     | _ => false)

def pathShape (data : JSON) : Bool :=
  isObjectType data && !(jsIsNull data) &&
    (match getField data "path" with
     | some .null => true
     | some (.arr xs) => xs.all isValidPubkey
     | _ => false)

/-- The bonus term of `calculateScore` under `DEFAULT_SCORING` at a hop level
whose per-hop bonus rate is `rate`: a proof-side abbreviation used to state
evaluation lemmas for the default configuration. -/
def defaultHopBonus (rate : ℚ) (paths : Option ℚ) : ℚ :=
  match paths with
  | some p => if 1 < p then min (rate * (p - 1)) (mkRat 1 2) else 0
  | none => 0

/-! ## Helper lemmas -/

lemma clamp01_nonneg (x : ℚ) : 0 ≤ min (max x 0) 1 :=
  le_min (le_max_right x 0) zero_le_one

lemma clamp01_le_one (x : ℚ) : min (max x 0) 1 ≤ 1 := min_le_right _ _

lemma clamp01_mono {x y : ℚ} (h : x ≤ y) : min (max x 0) 1 ≤ min (max y 0) 1 :=
  min_le_min (max_le_max h le_rfl) le_rfl

lemma wellFormedPB_ne_null {pb : PathBonusField} (h : wellFormedPB pb = true) :
    pb ≠ PathBonusField.null := by
  cases pb <;> simp_all [wellFormedPB]

lemma resolvePathBonusValue_ok {pb : PathBonusField} (h : pb ≠ PathBonusField.null)
    (k : Nat) : ∃ v, resolvePathBonusValue pb k = .ok v := by
  cases pb with
  | null => exact absurd rfl h
  | undef => exact ⟨_, rfl⟩
  | num v => exact ⟨_, rfl⟩
  | obj m => exact ⟨_, rfl⟩

/-- As long as the `pathBonus` field is not literally `null`, `calculateScore`
returns (without throwing) a value in `[0, 1]`. -/
lemma calc_mem_unit (hops : Option ℕ) (paths : Option ℚ) (scoring : ScoringConfig)
    (hpb : scoring.pathBonus ≠ PathBonusField.null) :
    ∃ v, calculateScore hops paths scoring = .ok v ∧ 0 ≤ v ∧ v ≤ 1 := by
  match hops with
  | none => exact ⟨0, rfl, le_refl 0, zero_le_one⟩
  | some 0 => exact ⟨1, rfl, zero_le_one, le_refl 1⟩
  | some (n + 1) =>
    cases paths with
    | none => exact ⟨_, rfl, clamp01_nonneg _, clamp01_le_one _⟩
    | some p =>
      by_cases hcond : 1 < p ∧ 1 < n + 1
      · obtain ⟨pbv, hpbv⟩ := resolvePathBonusValue_ok hpb (min (n + 1) 4)
        refine ⟨min (max (resolveBase scoring.distanceWeights (min (n + 1) 4) +
          min (pbv * (p - 1)) (scoring.maxPathBonus.getD (mkRat 1 2))) 0) 1,
          ?_, clamp01_nonneg _, clamp01_le_one _⟩
        simp only [calculateScore, if_pos hcond, hpbv, Except.map]
      · refine ⟨min (max (resolveBase scoring.distanceWeights (min (n + 1) 4) + 0) 0) 1,
          ?_, clamp01_nonneg _, clamp01_le_one _⟩
        simp only [calculateScore, if_neg hcond, Except.map]

/-! ## Claims -/

/-- C1: for every integer `hops ≥ 0` or `hops = null`, every `paths` in
`{null} ∪ ℕ`, and every well-formed scoring config, `calculateScore` returns
(without throwing) a value in the closed interval `[0, 1]`. -/
theorem calculateScore_bounded (hops paths : Option ℕ) (cfg : ScoringConfig)
    (hwf : wellFormedConfig cfg = true) :
    ∃ v, calculateScore hops (paths.map fun n => (n : ℚ)) cfg = .ok v ∧
      0 ≤ v ∧ v ≤ 1 := by
  have h : wellFormedPB cfg.pathBonus = true := by
    simp only [wellFormedConfig, Bool.and_eq_true] at hwf
    exact hwf.1.2
  exact calc_mem_unit _ _ _ (wellFormedPB_ne_null h)

theorem calculateScore_bounded_witness :
    ∃ v, calculateScore (some 2) ((some 3 : Option ℕ).map fun n => (n : ℚ))
      DEFAULT_SCORING = .ok v ∧ 0 ≤ v ∧ v ≤ 1 :=
  calculateScore_bounded (some 2) (some 3) DEFAULT_SCORING (by decide)

/-- C3: `calculateScore(0, paths, config)` is exactly `1.0` for every `paths`
and every scoring config, well-formed or not: the `hops === 0` branch returns
before any config field is read. -/
theorem calculateScore_zero_hops (paths : Option ℚ) (cfg : ScoringConfig) :
    calculateScore (some 0) paths cfg = .ok 1 := rfl

/-- C10: with `pathBonus` exactly `null` and `hops > 1`, `paths > 1`, the
per-hop-mapping branch dereferences `null` and throws a `TypeError`; with
`pathBonus` absent (`undefined`) the legacy default `0.1` is used and the
call returns normally. -/
theorem calculateScore_null_pathBonus (h : ℕ) (p : ℚ) (dw : DistField)
    (mpb : Option ℚ) (hh : 1 < h) (hp : 1 < p) :
    calculateScore (some h) (some p) ⟨dw, .null, mpb⟩ = .error .typeError ∧
    calculateScore (some h) (some p) ⟨dw, .undef, mpb⟩ =
      .ok (min (max (resolveBase dw (min h 4) +
        min (mkRat 1 10 * (p - 1)) (mpb.getD (mkRat 1 2))) 0) 1) := by
  obtain ⟨n, rfl⟩ : ∃ n, h = n + 1 := ⟨h - 1, by omega⟩
  have hcond : 1 < p ∧ 1 < n + 1 := ⟨hp, hh⟩
  constructor
  · simp only [calculateScore, if_pos hcond, resolvePathBonusValue, Except.map]
  · simp only [calculateScore, if_pos hcond, resolvePathBonusValue, Except.map]

theorem calculateScore_null_pathBonus_witness :
    calculateScore (some 2) (some 2) ⟨DistField.undef, .null, none⟩ =
      .error .typeError ∧
    calculateScore (some 2) (some 2) ⟨DistField.undef, .undef, none⟩ =
      .ok (min (max (resolveBase DistField.undef (min 2 4) +
        min (mkRat 1 10 * ((2 : ℚ) - 1)) ((none : Option ℚ).getD (mkRat 1 2))) 0) 1) :=
  calculateScore_null_pathBonus 2 2 DistField.undef none (by decide) (by decide)

lemma resolveBase_default_2 :
    resolveBase (DistField.obj DEFAULT_distanceWeights) 2 = mkRat 1 2 := rfl

lemma resolveBase_default_3 :
    resolveBase (DistField.obj DEFAULT_distanceWeights) 3 = mkRat 1 4 := rfl

lemma resolveBase_default_4 :
    resolveBase (DistField.obj DEFAULT_distanceWeights) 4 = mkRat 1 10 := rfl

lemma rpb_default_2 :
    resolvePathBonusValue (PathBonusField.obj DEFAULT_pathBonus) 2 = .ok (mkRat 3 20) := rfl

lemma rpb_default_3 :
    resolvePathBonusValue (PathBonusField.obj DEFAULT_pathBonus) 3 = .ok (mkRat 1 10) := rfl

lemma rpb_default_4 :
    resolvePathBonusValue (PathBonusField.obj DEFAULT_pathBonus) 4 = .ok (mkRat 1 20) := rfl

lemma calc_default_one (p : Option ℚ) :
    calculateScore (some 1) p DEFAULT_SCORING = .ok 1 := by
  cases p with
  | none =>
    simp only [calculateScore, Except.map]
    norm_num [resolveBase, distLookup, DEFAULT_SCORING, DEFAULT_distanceWeights, List.lookup,
      Rat.mkRat_eq_divInt, Rat.divInt_eq_div, min_def, max_def]
  | some q =>
    have hcond : ¬(1 < q ∧ 1 < 0 + 1) := fun hc => by norm_num at hc
    simp only [calculateScore, if_neg hcond, Except.map]
    norm_num [resolveBase, distLookup, DEFAULT_SCORING, DEFAULT_distanceWeights, List.lookup,
      Rat.mkRat_eq_divInt, Rat.divInt_eq_div, min_def, max_def]

lemma calc_default_two (p : Option ℚ) :
    calculateScore (some 2) p DEFAULT_SCORING =
      .ok (min (max (mkRat 1 2 + defaultHopBonus (mkRat 3 20) p) 0) 1) := by
  cases p with
  | none =>
    simp only [calculateScore, Except.map, defaultHopBonus]
    norm_num [resolveBase_default_2, DEFAULT_SCORING]
  | some q =>
    by_cases hq : 1 < q
    · have hcond : 1 < q ∧ 1 < 1 + 1 := ⟨hq, by norm_num⟩
      simp only [calculateScore, if_pos hcond, Except.map, defaultHopBonus, if_pos hq]
      norm_num [resolveBase_default_2, rpb_default_2, DEFAULT_SCORING]
    · have hcond : ¬(1 < q ∧ 1 < 1 + 1) := fun hc => hq hc.1
      simp only [calculateScore, if_neg hcond, Except.map, defaultHopBonus, if_neg hq]
      norm_num [resolveBase_default_2, DEFAULT_SCORING]

lemma calc_default_three (p : Option ℚ) :
    calculateScore (some 3) p DEFAULT_SCORING =
      .ok (min (max (mkRat 1 4 + defaultHopBonus (mkRat 1 10) p) 0) 1) := by
  cases p with
  | none =>
    simp only [calculateScore, Except.map, defaultHopBonus]
    norm_num [resolveBase_default_3, DEFAULT_SCORING]
  | some q =>
    by_cases hq : 1 < q
    · have hcond : 1 < q ∧ 1 < 2 + 1 := ⟨hq, by norm_num⟩
      simp only [calculateScore, if_pos hcond, Except.map, defaultHopBonus, if_pos hq]
      norm_num [resolveBase_default_3, rpb_default_3, DEFAULT_SCORING]
    · have hcond : ¬(1 < q ∧ 1 < 2 + 1) := fun hc => hq hc.1
      simp only [calculateScore, if_neg hcond, Except.map, defaultHopBonus, if_neg hq]
      norm_num [resolveBase_default_3, DEFAULT_SCORING]

lemma calc_default_four (p : Option ℚ) :
    calculateScore (some 4) p DEFAULT_SCORING =
      .ok (min (max (mkRat 1 10 + defaultHopBonus (mkRat 1 20) p) 0) 1) := by
  cases p with
  | none =>
    simp only [calculateScore, Except.map, defaultHopBonus]
    norm_num [resolveBase_default_4, DEFAULT_SCORING]
  | some q =>
    by_cases hq : 1 < q
    · have hcond : 1 < q ∧ 1 < 3 + 1 := ⟨hq, by norm_num⟩
      simp only [calculateScore, if_pos hcond, Except.map, defaultHopBonus, if_pos hq]
      norm_num [resolveBase_default_4, rpb_default_4, DEFAULT_SCORING]
    · have hcond : ¬(1 < q ∧ 1 < 3 + 1) := fun hc => hq hc.1
      simp only [calculateScore, if_neg hcond, Except.map, defaultHopBonus, if_neg hq]
      norm_num [resolveBase_default_4, DEFAULT_SCORING]

lemma defaultHopBonus_mono {r₁ r₂ : ℚ} (h : r₁ ≤ r₂) (p : Option ℚ) :
    defaultHopBonus r₁ p ≤ defaultHopBonus r₂ p := by
  cases p with
  | none => exact le_rfl
  | some q =>
    by_cases hq : 1 < q
    · simp only [defaultHopBonus, if_pos hq]
      exact min_le_min (mul_le_mul_of_nonneg_right h (by linarith)) le_rfl
    · simp only [defaultHopBonus, if_neg hq]
      exact le_rfl

/-- C6: under the default scoring config, for every fixed `paths` value the
score is non-increasing as the integer `hops` increases from 1 to 4. -/
theorem calculateScore_default_antitone (paths : Option ℚ) (h₁ h₂ : ℕ)
    (hl : 1 ≤ h₁) (hm : h₁ ≤ h₂) (hr : h₂ ≤ 4) :
    ∃ v₁ v₂, calculateScore (some h₁) paths DEFAULT_SCORING = .ok v₁ ∧
      calculateScore (some h₂) paths DEFAULT_SCORING = .ok v₂ ∧ v₂ ≤ v₁ := by
  have h4 : h₁ ≤ 4 := le_trans hm hr
  interval_cases h₁ <;> interval_cases h₂
  · exact ⟨_, _, calc_default_one paths, calc_default_one paths, le_rfl⟩
  · exact ⟨_, _, calc_default_one paths, calc_default_two paths, clamp01_le_one _⟩
  · exact ⟨_, _, calc_default_one paths, calc_default_three paths, clamp01_le_one _⟩
  · exact ⟨_, _, calc_default_one paths, calc_default_four paths, clamp01_le_one _⟩
  · exact ⟨_, _, calc_default_two paths, calc_default_two paths, le_rfl⟩
  · exact ⟨_, _, calc_default_two paths, calc_default_three paths,
      clamp01_mono (add_le_add (by decide) (defaultHopBonus_mono (by decide) paths))⟩
  · exact ⟨_, _, calc_default_two paths, calc_default_four paths,
      clamp01_mono (add_le_add (by decide) (defaultHopBonus_mono (by decide) paths))⟩
  · exact ⟨_, _, calc_default_three paths, calc_default_three paths, le_rfl⟩
  · exact ⟨_, _, calc_default_three paths, calc_default_four paths,
      clamp01_mono (add_le_add (by decide) (defaultHopBonus_mono (by decide) paths))⟩
  · exact ⟨_, _, calc_default_four paths, calc_default_four paths, le_rfl⟩

theorem calculateScore_default_antitone_witness :
    ∃ v₁ v₂, calculateScore (some 1) (some 3) DEFAULT_SCORING = .ok v₁ ∧
      calculateScore (some 2) (some 3) DEFAULT_SCORING = .ok v₂ ∧ v₂ ≤ v₁ :=
  calculateScore_default_antitone (some 3) 1 2 (by decide) (by decide) (by decide)

lemma mkRat_9_10 : mkRat 9 10 = (9 : ℚ) / 10 := by
  rw [Rat.mkRat_eq_divInt, Rat.divInt_eq_div]; norm_num

lemma mkRat_1_2 : mkRat 1 2 = (1 : ℚ) / 2 := by
  rw [Rat.mkRat_eq_divInt, Rat.divInt_eq_div]; norm_num

lemma mkRat_1_4 : mkRat 1 4 = (1 : ℚ) / 4 := by
  rw [Rat.mkRat_eq_divInt, Rat.divInt_eq_div]; norm_num

lemma mkRat_1_10 : mkRat 1 10 = (1 : ℚ) / 10 := by
  rw [Rat.mkRat_eq_divInt, Rat.divInt_eq_div]; norm_num

/-- C2: an HTTP 404 response is translated to the operation's empty sentinel
and never raised: `null` for `getDistance`, `getDistanceInfo` and `getPath`,
an empty array for `getFollows` and `getCommonFollows` — whatever the body. -/
theorem oracle_404_empty_sentinel (body : JSON) :
    getDistance (.response ⟨404, body⟩) = .ok .null ∧
    getDistanceInfo (.response ⟨404, body⟩) = .ok .null ∧
    getPath (.response ⟨404, body⟩) = .ok .null ∧
    getFollows (.response ⟨404, body⟩) = .ok (.arr []) ∧
    getCommonFollows (.response ⟨404, body⟩) = .ok (.arr []) :=
  ⟨rfl, rfl, rfl, rfl, rfl⟩

/-- C4: every operation other than `isHealthy`, on a non-2xx status other
than 404, fails with a thrown error whose message names the endpoint context
and the numeric status code, rather than returning a value. -/
theorem oracle_non2xx_error (status : ℕ) (body : JSON)
    (h1 : ¬(200 ≤ status ∧ status < 300)) (h2 : status ≠ 404) :
    getDistance (.response ⟨status, body⟩) =
      .error (.thrown ("Oracle error: " ++ toString status)) ∧
    getDistanceInfo (.response ⟨status, body⟩) =
      .error (.thrown ("Oracle error: " ++ toString status)) ∧
    getDistanceBatch (.response ⟨status, body⟩) =
      .error (.thrown ("Oracle batch error: " ++ toString status)) ∧
    getStats (.response ⟨status, body⟩) =
      .error (.thrown ("Oracle stats error: " ++ toString status)) ∧
    getFollows (.response ⟨status, body⟩) =
      .error (.thrown ("Oracle follows error: " ++ toString status)) ∧
    getCommonFollows (.response ⟨status, body⟩) =
      .error (.thrown ("Oracle common-follows error: " ++ toString status)) ∧
    getPath (.response ⟨status, body⟩) =
      .error (.thrown ("Oracle path error: " ++ toString status)) := by
  have hok : resOk status = false := by
    simp only [resOk, Bool.and_eq_false_iff, decide_eq_false_iff_not]
    omega
  have h404 : (status == 404) = false := by simpa using h2
  refine ⟨?_, ?_, ?_, ?_, ?_, ?_, ?_⟩ <;>
    simp [getDistance, getDistanceInfo, getDistanceBatch, getStats, getFollows,
      getCommonFollows, getPath, hok, h404]

theorem oracle_non2xx_error_witness :
    getDistance (.response ⟨500, .null⟩) =
      .error (.thrown ("Oracle error: " ++ toString 500)) ∧
    getDistanceInfo (.response ⟨500, .null⟩) =
      .error (.thrown ("Oracle error: " ++ toString 500)) ∧
    getDistanceBatch (.response ⟨500, .null⟩) =
      .error (.thrown ("Oracle batch error: " ++ toString 500)) ∧
    getStats (.response ⟨500, .null⟩) =
      .error (.thrown ("Oracle stats error: " ++ toString 500)) ∧
    getFollows (.response ⟨500, .null⟩) =
      .error (.thrown ("Oracle follows error: " ++ toString 500)) ∧
    getCommonFollows (.response ⟨500, .null⟩) =
      .error (.thrown ("Oracle common-follows error: " ++ toString 500)) ∧
    getPath (.response ⟨500, .null⟩) =
      .error (.thrown ("Oracle path error: " ++ toString 500)) :=
  oracle_non2xx_error 500 .null (by decide) (by decide)

/-- C5: `isHealthy` always returns a boolean: `true` exactly when the
Transport produced a response with a 2xx status, and `false` on every
failure of any kind (non-2xx status or network-level error). -/
theorem isHealthy_iff (t : TransportResult) :
    isHealthy t = true ↔
      ∃ s b, t = .response ⟨s, b⟩ ∧ 200 ≤ s ∧ s < 300 := by
  cases t with
  | netError => simp [isHealthy]
  | response res =>
    obtain ⟨s, b⟩ := res
    simp only [isHealthy, resOk, Bool.and_eq_true, decide_eq_true_eq]
    constructor
    · rintro ⟨hs1, hs2⟩
      exact ⟨s, b, rfl, hs1, hs2⟩
    · rintro ⟨s', b', heq, hs1, hs2⟩
      injection heq with h'
      injection h' with hs hb
      subst hs
      exact ⟨hs1, hs2⟩

theorem isHealthy_iff_witness :
    isHealthy (.response ⟨204, .null⟩) = true ∧ isHealthy .netError = false :=
  ⟨(isHealthy_iff (.response ⟨204, .null⟩)).mpr ⟨204, .null, rfl, by decide, by decide⟩,
   rfl⟩

/-- C7: `getTrustLevel` maps a `null`/absent score to `"Unknown"` and
otherwise buckets by inclusive lower bounds `0.9`, `0.5`, `0.25`, `0.1`,
with each boundary value falling into the higher bucket. -/
theorem getTrustLevel_buckets :
    getTrustLevel none = "Unknown" ∧
    (∀ s : ℚ, 9/10 ≤ s → getTrustLevel (some s) = "Very High") ∧
    (∀ s : ℚ, 1/2 ≤ s → s < 9/10 → getTrustLevel (some s) = "High") ∧
    (∀ s : ℚ, 1/4 ≤ s → s < 1/2 → getTrustLevel (some s) = "Medium") ∧
    (∀ s : ℚ, 1/10 ≤ s → s < 1/4 → getTrustLevel (some s) = "Low") ∧
    (∀ s : ℚ, s < 1/10 → getTrustLevel (some s) = "Very Low") := by
  refine ⟨rfl, ?_, ?_, ?_, ?_, ?_⟩
  · intro s h
    have h1 : mkRat 9 10 ≤ s := by rw [mkRat_9_10]; linarith
    simp [getTrustLevel, h1]
  · intro s hlo hhi
    have h1 : ¬ mkRat 9 10 ≤ s := by rw [mkRat_9_10]; linarith
    have h2 : mkRat 1 2 ≤ s := by rw [mkRat_1_2]; linarith
    simp [getTrustLevel, h1, h2]
  · intro s hlo hhi
    have h1 : ¬ mkRat 9 10 ≤ s := by rw [mkRat_9_10]; linarith
    have h2 : ¬ mkRat 1 2 ≤ s := by rw [mkRat_1_2]; linarith
    have h3 : mkRat 1 4 ≤ s := by rw [mkRat_1_4]; linarith
    simp [getTrustLevel, h1, h2, h3]
  · intro s hlo hhi
    have h1 : ¬ mkRat 9 10 ≤ s := by rw [mkRat_9_10]; linarith
    have h2 : ¬ mkRat 1 2 ≤ s := by rw [mkRat_1_2]; linarith
    have h3 : ¬ mkRat 1 4 ≤ s := by rw [mkRat_1_4]; linarith
    have h4 : mkRat 1 10 ≤ s := by rw [mkRat_1_10]; linarith
    simp [getTrustLevel, h1, h2, h3, h4]
  · intro s hhi
    have h1 : ¬ mkRat 9 10 ≤ s := by rw [mkRat_9_10]; linarith
    have h2 : ¬ mkRat 1 2 ≤ s := by rw [mkRat_1_2]; linarith
    have h3 : ¬ mkRat 1 4 ≤ s := by rw [mkRat_1_4]; linarith
    have h4 : ¬ mkRat 1 10 ≤ s := by rw [mkRat_1_10]; linarith
    simp [getTrustLevel, h1, h2, h3, h4]

theorem getTrustLevel_buckets_witness :
    getTrustLevel (some ((9 : ℚ) / 10)) = "Very High" ∧
    getTrustLevel (some ((1 : ℚ) / 2)) = "High" ∧
    getTrustLevel (some ((1 : ℚ) / 4)) = "Medium" ∧
    getTrustLevel (some ((1 : ℚ) / 10)) = "Low" ∧
    getTrustLevel (some 0) = "Very Low" :=
  ⟨getTrustLevel_buckets.2.1 _ (by norm_num),
   getTrustLevel_buckets.2.2.1 _ (by norm_num) (by norm_num),
   getTrustLevel_buckets.2.2.2.1 _ (by norm_num) (by norm_num),
   getTrustLevel_buckets.2.2.2.2.1 _ (by norm_num) (by norm_num),
   getTrustLevel_buckets.2.2.2.2.2 _ (by norm_num)⟩

lemma checkBatchEntries_ok {l : List (String × JSON)}
    (h : l.all (fun e => isValidPubkey (.str e.1) && isValidHops (some e.2)) = true) :
    checkBatchEntries l = .ok () := by
  induction l with
  | nil => rfl
  | cons e rest ih =>
    obtain ⟨k, v⟩ := e
    simp only [List.all_cons, Bool.and_eq_true] at h
    obtain ⟨⟨hpk, hv⟩, hrest⟩ := h
    simp [checkBatchEntries, hpk, hv, ih hrest]

lemma checkFollowsList_ok {xs : List JSON} (h : ∀ x ∈ xs, isValidPubkey x = true) :
    checkFollowsList xs = .ok () := by
  induction xs with
  | nil => rfl
  | cons x rest ih =>
    simp [checkFollowsList, h x (List.mem_cons_self x rest),
      ih fun y hy => h y (List.mem_cons_of_mem x hy)]

lemma checkCommonList_ok {xs : List JSON} (h : ∀ x ∈ xs, isValidPubkey x = true) :
    checkCommonList xs = .ok () := by
  induction xs with
  | nil => rfl
  | cons x rest ih =>
    simp [checkCommonList, h x (List.mem_cons_self x rest),
      ih fun y hy => h y (List.mem_cons_of_mem x hy)]

lemma checkPathList_ok {xs : List JSON} (h : ∀ x ∈ xs, isValidPubkey x = true) :
    checkPathList xs = .ok () := by
  induction xs with
  | nil => rfl
  | cons x rest ih =>
    simp [checkPathList, h x (List.mem_cons_self x rest),
      ih fun y hy => h y (List.mem_cons_of_mem x hy)]

/-- C8: each response validator is the identity on valid input — a decoded
body that satisfies the documented shape rules is returned unchanged,
extra fields included. -/
theorem validators_identity :
    (∀ d, distanceShape d = true → validateDistanceResponse d = .ok d) ∧
    (∀ d, batchShape d = true → validateBatchResponse d = .ok d) ∧
    (∀ d, followsShape d = true → validateFollowsResponse d = .ok d) ∧
    (∀ d, commonFollowsShape d = true → validateCommonFollowsResponse d = .ok d) ∧
    (∀ d, pathShape d = true → validatePathResponse d = .ok d) := by
  refine ⟨?_, ?_, ?_, ?_, ?_⟩
  · intro d h
    simp only [distanceShape, Bool.and_eq_true, Bool.not_eq_true', Bool.or_eq_true] at h
    obtain ⟨⟨⟨hobj, hnull⟩, hhops⟩, hpaths⟩ := h
    have hpcond :
        ((getField d "paths").isSome && !(isValidPaths (getField d "paths"))) = false := by
      cases hsome : (getField d "paths").isSome with
      | false => simp
      | true =>
        rcases hpaths with h' | h'
        · rw [hsome] at h'; simp at h'
        · simp [h']
    simp [validateDistanceResponse, hobj, hnull, hhops, hpcond]
  · intro d h
    simp only [batchShape, Bool.and_eq_true, Bool.not_eq_true'] at h
    obtain ⟨⟨hobj, hnull⟩, hall⟩ := h
    simp [validateBatchResponse, hobj, hnull, checkBatchEntries_ok hall]
  · intro d h
    simp only [followsShape, Bool.and_eq_true, Bool.not_eq_true'] at h
    obtain ⟨⟨hobj, hnull⟩, hm⟩ := h
    cases hg : getField d "follows" with
    | none => rw [hg] at hm; simp at hm
    | some v =>
      rw [hg] at hm
      cases v with
      | arr xs =>
        simp only [List.all_eq_true] at hm
        simp [validateFollowsResponse, hobj, hnull, hg, checkFollowsList_ok hm]
      | null => simp at hm
      | bool b => simp at hm
      | num q => simp at hm
      | str s2 => simp at hm
      | obj fs => simp at hm
  · intro d h
    simp only [commonFollowsShape, Bool.and_eq_true, Bool.not_eq_true'] at h
    obtain ⟨⟨hobj, hnull⟩, hm⟩ := h
    cases hg : getField d "common" with
    | none => rw [hg] at hm; simp at hm
    | some v =>
      rw [hg] at hm
      cases v with
      | arr xs =>
        simp only [List.all_eq_true] at hm
        simp [validateCommonFollowsResponse, hobj, hnull, hg, checkCommonList_ok hm]
      | null => simp at hm
      | bool b => simp at hm
      | num q => simp at hm
      | str s2 => simp at hm
      | obj fs => simp at hm
  · intro d h
    simp only [pathShape, Bool.and_eq_true, Bool.not_eq_true'] at h
    obtain ⟨⟨hobj, hnull⟩, hm⟩ := h
    cases hg : getField d "path" with
    | none => rw [hg] at hm; simp at hm
    | some v =>
      rw [hg] at hm
      cases v with
      | arr xs =>
        simp only [List.all_eq_true] at hm
        simp [validatePathResponse, hobj, hnull, hg, checkPathList_ok hm]
      | null => simp [validatePathResponse, hobj, hnull, hg]
      | bool b => simp at hm
      | num q => simp at hm
      | str s2 => simp at hm
      | obj fs => simp at hm

theorem validators_identity_witness :
    validateDistanceResponse (.obj [("hops", .num 2), ("bridges", .bool true)]) =
      .ok (.obj [("hops", .num 2), ("bridges", .bool true)]) :=
  validators_identity.1 (.obj [("hops", .num 2), ("bridges", .bool true)]) (by decide)

/-- C9: the pubkey validation predicate accepts exactly the strings of 64
hexadecimal characters (letters of either case); every other value — wrong
length, non-hex character, or non-string — is rejected. -/
theorem isValidPubkey_iff (v : JSON) :
    isValidPubkey v = true ↔
      ∃ s : String, v = .str s ∧ s.length = 64 ∧
        ∀ c ∈ s.data, ('a' ≤ c ∧ c ≤ 'f') ∨ ('A' ≤ c ∧ c ≤ 'F') ∨
          ('0' ≤ c ∧ c ≤ '9') := by
  cases v with
  | str s =>
    simp only [isValidPubkey, Bool.and_eq_true, beq_iff_eq, List.all_eq_true, isHexCharCI,
      Bool.or_eq_true, decide_eq_true_eq]
    constructor
    · rintro ⟨h1, h2⟩
      exact ⟨s, rfl, h1, fun c hc => or_assoc.mp (h2 c hc)⟩
    · rintro ⟨s', heq, h1, h2⟩
      injection heq with hs
      subst hs
      exact ⟨h1, fun c hc => or_assoc.mpr (h2 c hc)⟩
  | null => simp [isValidPubkey]
  | bool b => simp [isValidPubkey]
  | num q => simp [isValidPubkey]
  | arr xs => simp [isValidPubkey]
  | obj fs => simp [isValidPubkey]

theorem isValidPubkey_iff_witness :
    isValidPubkey
      (.str "0123456789abcdef0123456789ABCDEF0123456789abcdef0123456789abcdef") = true :=
  (isValidPubkey_iff _).mpr ⟨_, rfl, by decide, by decide⟩
